import Mathlib

/-!
Shallow embedding of the RSVP / capacity / cancellation subsystem of
`src/api/server.js` (La Pista booking platform).

The embedding models the four relevant request handlers as pure functions on
an explicit database state:

* `postRsvp`       — `POST /api/rsvp` (cash-path reservation), server.js:623-720
* `postCheckout`   — `POST /api/checkout` (checkout initiation), server.js:723-835
* `postWebhook`    — `POST /api/webhook`, `checkout.session.completed` branch,
                     server.js:838-927 (invoked only after signature
                     verification succeeds; unverifiable events change nothing)
* `postCancel`     — `POST /api/rsvp/:code/cancel`, server.js:1015-1194

plus `generateConfirmationCode` (server.js:267-277).

Modelling conventions:
* JavaScript numbers used as integers (spots, capacity, totalPlayers,
  millisecond timestamps) become `Int`; money amounts are also `Int` (they are
  never compared by the claims).
* MongoDB collections become Lean lists; `findOne` is `List.find?` (first
  match in insertion order); the unique index on `RSVP.confirmationCode`
  (models.js `rsvpSchema`) is modelled by `insertRsvp`, which rejects an
  insert whose code is already present, exactly as `rsvp.save()` throws.
* Randomness (`crypto.randomBytes`) is an explicit parameter: the handlers
  receive the already-generated code string, and `generateConfirmationCode`
  is a function of the drawn byte list.
* Outbound email / operator notifications and payment-gateway refunds are
  recorded as an `Effect` list instead of performing I/O; the handlers in the
  source never call `stripe.refunds.create`, and correspondingly no
  constructor of `Effect.stripeRefund` ever appears in a handler's output.
* String primitives (`trim`, `toLowerCase`, `toUpperCase`, `slice`) are
  re-implemented over `List Char` (`jsTrim`, `jsToLower`, `jsToUpper`,
  `jsSlice`) so that all definitions reduce inside the kernel; they agree
  with the JavaScript originals on the ASCII data used here.
* The `Reservation` structure mirrors exactly the paths of `rsvpSchema`
  (models.js) that the booking subsystem reads or writes.  The cancellation
  handler also assigns `rsvp.refundEligible` and `rsvp.cancelledAt`
  (server.js:1067-1068), but `rsvpSchema` declares neither path and no
  schema in models.js passes `strict: false`, so Mongoose strict mode (the
  default) silently discards both assignments at `rsvp.save()`: the stored
  record never carries them, and accordingly they do not exist in the
  embedded record type.  The locally computed `refundEligible` value still
  reaches the HTTP response and the operator alert, which the embedding
  keeps.
-/

/-- JavaScript `String.prototype.toLowerCase` restricted to ASCII. -/
def jsToLower (s : String) : String := ⟨s.data.map Char.toLower⟩

/-- JavaScript `String.prototype.toUpperCase` restricted to ASCII. -/
def jsToUpper (s : String) : String := ⟨s.data.map Char.toUpper⟩

/-- JavaScript `String.prototype.trim`: drop leading and trailing whitespace. -/
def jsTrim (s : String) : String :=
  ⟨((s.data.dropWhile Char.isWhitespace).reverse.dropWhile Char.isWhitespace).reverse⟩

/-- JavaScript `str.slice(0, n)`: keep the first `n` characters. -/
def jsSlice (s : String) (n : Nat) : String := ⟨s.data.take n⟩

/-- The `sanitize` helper used by the handlers:
`(str) => str?.toString().trim().slice(0, 100)` (server.js:635). -/
def sanitize (s : String) : String := jsSlice (jsTrim s) 100

/-- Email normalisation used by both reservation paths:
`email.toLowerCase().trim().slice(0, 254)` (server.js:636). -/
def sanitizeEmail (s : String) : String := jsSlice (jsTrim (jsToLower s)) 254

/-- A character admitted by the `[^\s@]` class of the email regex. -/
def isEmailChar (c : Char) : Bool := !c.isWhitespace && c != '@'

/-- The test `/^[^\s@]+@[^\s@]+\.[^\s@]+$/.test(s)` (server.js:639): the
string splits as `A@B` with `A` a nonempty run of non-space non-`@`
characters and `B` a nonempty such run containing a dot that is neither its
first nor its last character. -/
def validEmailFormat (s : String) : Bool :=
  let cs := s.data
  let a := cs.takeWhile (fun c => c != '@')
  match cs.dropWhile (fun c => c != '@') with
  | [] => false
  | _ :: b =>
      !a.isEmpty && a.all isEmailChar &&
      !b.isEmpty && b.all isEmailChar &&
      ((b.drop 1).dropLast.contains '.')

/-- Alphabet of `generateConfirmationCode` (server.js:270): visually
unambiguous characters (no 0/O, 1/I/l, i, o). -/
def confirmationAlphabet : List Char :=
  "ABCDEFGHJKLMNPQRSTUVWXYZabcdefghjkmnpqrstuvwxyz23456789".data

/-- The `generateConfirmationCode` helper (server.js:267-277) as a function of
the 12 random bytes drawn from `crypto.randomBytes(12)`:
`"LP-"` followed by 12 characters indexed by `byte % alphabet.length`. -/
def generateConfirmationCode (bytes : List Nat) : String :=
  ⟨"LP-".data ++
    (bytes.take 12).map
      (fun b => confirmationAlphabet.getD (b % confirmationAlphabet.length) 'A')⟩

/-- `Game.status` values (models.js `gameSchema.status` enum). -/
inductive GameStatus where
  | scheduled
  | open
  | full
  | inProgress
  | completed
  | cancelled
deriving DecidableEq, Repr

/-- `RSVP.paymentMethod` values (models.js `rsvpSchema.paymentMethod` enum). -/
inductive PaymentMethod where
  | online
  | cash
  | cashapp
deriving DecidableEq, Repr

/-- `RSVP.paymentStatus` values (models.js `rsvpSchema.paymentStatus` enum). -/
inductive PaymentStatus where
  | pending
  | paid
  | refunded
  | cancelled
deriving DecidableEq, Repr

/-- `RSVP.status` values (models.js `rsvpSchema.status` enum). -/
inductive RsvpStatus where
  | confirmed
  | pending
  | cancelled
  | noShow
deriving DecidableEq, Repr

/-- A game record (models.js `gameSchema`), restricted to the fields the
booking subsystem reads or writes.  `date` is a millisecond timestamp. -/
structure Game where
  gameId : String
  date : Int
  price : Int
  capacity : Int
  spotsRemaining : Int
  status : GameStatus
deriving DecidableEq, Repr

/-- The embedded `player` subdocument of an RSVP. -/
structure Player where
  firstName : String
  lastName : String
  email : String
  phone : String
deriving DecidableEq, Repr

/-- A guest subdocument: first and last name. -/
structure Guest where
  firstName : String
  lastName : String
deriving DecidableEq, Repr

/-- An RSVP record, restricted to the paths of models.js `rsvpSchema` that
the booking subsystem reads or writes.  `refundEligible` and `cancelledAt`,
assigned by the cancellation handler (server.js:1067-1068), are NOT schema
paths: strict-mode `save()` drops them, so the persisted record — which is
what this structure models — never carries them. -/
structure Reservation where
  gameId : String
  confirmationCode : String
  player : Player
  guests : List Guest
  totalPlayers : Int
  totalAmount : Int
  paymentMethod : PaymentMethod
  paymentStatus : PaymentStatus
  stripeSessionId : Option String
  stripePaymentIntentId : Option String
  waiverAccepted : Bool
  waiverAcceptedAt : Option Int
  waiverAcceptedIP : String
  status : RsvpStatus
deriving DecidableEq, Repr

/-- A waitlist entry (models.js `waitlistSchema`). -/
structure WaitlistEntry where
  gameId : String
  email : String
  name : String
  phone : String
  notified : Bool
  notifiedAt : Option Int
  createdAt : Int
deriving DecidableEq, Repr

/-- The persistent state touched by the booking subsystem. -/
structure DB where
  games : List Game
  rsvps : List Reservation
  waitlist : List WaitlistEntry
deriving DecidableEq, Repr

/-- Outbound side effects of a handler (notification sink and payment
gateway).  `stripeRefund` models `PaymentGateway.issueRefund`; no handler in
this subsystem emits it (refunds are manual, server.js:1065). -/
inductive Effect where
  | emailConfirmation (code : String)
  | operatorCancelAlert (code : String) (refundEligible : Bool)
  | waitlistSpotOpened (gameId : String) (email : String)
  | cancellationEmail (code : String)
  | stripeRefund (paymentIntentId : String)
deriving DecidableEq, Repr

/-- HTTP-level outcome of a handler, as far as the claims observe it. -/
inductive Resp where
  | rsvpSuccess (confirmationCode : String)
  | checkoutSession (sessionId : String) (confirmationCode : String)
  | webhookReceived (duplicate : Bool)
  | cancelSuccess (refundEligible : Bool) (refund : Bool)
  | err (status : Nat) (msg : String)
deriving DecidableEq, Repr

/-- `Game.findOne({ gameId })` (first match in insertion order). -/
def findGame (db : DB) (gid : String) : Option Game :=
  db.games.find? (fun g => g.gameId = gid)

/-- The duplicate-booking lookup used by both reservation paths
(server.js:655-659): first non-cancelled RSVP for the (gameId, email) pair. -/
def findDuplicateRsvp (db : DB) (gid : String) (email : String) : Option Reservation :=
  db.rsvps.find? (fun r =>
    r.gameId = gid && r.player.email = email && r.status ≠ RsvpStatus.cancelled)

/-- `rsvp.save()` under the unique index on `confirmationCode`
(models.js:58-62): the insert is rejected when the code is already present,
otherwise the record is appended. -/
def insertRsvp (db : DB) (r : Reservation) : Except Unit DB :=
  if db.rsvps.any (fun x => x.confirmationCode = r.confirmationCode) then
    Except.error ()
  else
    Except.ok { db with rsvps := db.rsvps ++ [r] }

/-- `game.save()` after mutating a fetched game document: replace the record
with the same `gameId`. -/
def updateGame (db : DB) (g : Game) : DB :=
  { db with games := db.games.map (fun x => if x.gameId = g.gameId then g else x) }

/-- `rsvp.save()` after mutating a fetched RSVP document: replace the record
with the same `confirmationCode`. -/
def updateRsvp (db : DB) (r : Reservation) : DB :=
  { db with rsvps := db.rsvps.map (fun x =>
      if x.confirmationCode = r.confirmationCode then r else x) }

/-- `waitlistEntry.save()` after mutating a fetched entry: replace the record
with the same (gameId, email) key (unique index, models.js:162). -/
def updateWaitlist (db : DB) (w : WaitlistEntry) : DB :=
  { db with waitlist := db.waitlist.map (fun x =>
      if x.gameId = w.gameId && x.email = w.email then w else x) }

/-- `Waitlist.findOne({ gameId, notified: false }).sort({ createdAt: 1 })`
(server.js:1121-1124): the earliest un-notified entry for the game. -/
def findNextWaitlist (db : DB) (gid : String) : Option WaitlistEntry :=
  (db.waitlist.filter (fun w => w.gameId = gid && !w.notified)).foldl
    (fun acc w =>
      match acc with
      | none => some w
      | some a => if w.createdAt < a.createdAt then some w else some a)
    none

/-- Generic duplicate-booking error message (server.js:662-664, 761-764): it
deliberately carries no confirmation code. -/
def dupBookingMsg : String :=
  "An RSVP already exists for this email. Check your email for the confirmation code."

/-- Uniform cancellation-failure message (server.js:1040): used both when no
RSVP matches the code and when the claimed email mismatches. -/
def notFoundOrMismatchMsg : String := "Booking not found or email does not match"

/-- Request body shared by `POST /api/rsvp` and `POST /api/checkout`
(the checkout handler does not read `paymentMethod`).  Absent string fields
are modelled as `""`, matching JavaScript falsiness of `undefined` and `""`. -/
structure RsvpRequest where
  gameId : String
  firstName : String
  lastName : String
  email : String
  phone : String
  guests : List Guest
  waiverAccepted : Bool
  paymentMethod : String
  lang : String
deriving DecidableEq, Repr

/-- The refund-eligibility comparison of server.js:1061-1062 transcribed
literally: `hoursUntilGame = diffMs / (1000*60*60); hoursUntilGame >= 24`,
computed in exact rational arithmetic (the JavaScript double rounding cannot
flip this comparison at integer-millisecond inputs, since the relative gap to
24 of any off-boundary quotient far exceeds the rounding error). -/
def hoursUntilGameGe24Rat (diffMs : Int) : Bool :=
  decide ((24 : ℚ) ≤ (diffMs : ℚ) / (1000 * 60 * 60))

/-- Kernel-reducible form of the same comparison, used by the handler; the
theorem `hoursUntilGameGe24_eq_rat` proves it equal to the literal
transcription `hoursUntilGameGe24Rat`. -/
def hoursUntilGameGe24 (diffMs : Int) : Bool :=
  decide (24 * (1000 * 60 * 60) ≤ diffMs)

/-- The reservation record built by the cash-path handler
(server.js:674-697).  Note `gameId` is stored unsanitised (server.js:675)
while the lookups used `sanitize`; `paymentMethod` is
`paymentMethod === 'cashapp' ? 'cashapp' : 'cashapp'` (server.js:690), i.e.
`cashapp` whatever the request says. -/
def cashRsvp (req : RsvpRequest) (game : Game) (newCode : String) (now : Int)
    (ip : String) : Reservation :=
  { gameId := req.gameId
    confirmationCode := newCode
    player :=
      { firstName := sanitize req.firstName
        lastName := sanitize req.lastName
        email := sanitizeEmail req.email
        phone := sanitize req.phone }
    guests := req.guests.map (fun g =>
      { firstName := sanitize g.firstName, lastName := sanitize g.lastName })
    totalPlayers := 1 + req.guests.length
    totalAmount := (1 + req.guests.length) * game.price
    paymentMethod :=
      if req.paymentMethod = "cashapp" then PaymentMethod.cashapp
      else PaymentMethod.cashapp
    paymentStatus := PaymentStatus.pending
    stripeSessionId := none
    stripePaymentIntentId := none
    waiverAccepted := req.waiverAccepted
    waiverAcceptedAt := some now
    waiverAcceptedIP := ip
    status := RsvpStatus.confirmed }

/-- Handler of `POST /api/rsvp` (server.js:623-720), the cash-path
reservation.  `newCode` stands for the value of
`generateConfirmationCode().toUpperCase()` drawn inside the handler, `now`
for `new Date()`, and `ip` for the requester IP captured for the waiver. -/
def postRsvp (db : DB) (req : RsvpRequest) (newCode : String) (now : Int) (ip : String) :
    Resp × DB × List Effect :=
  if req.gameId = "" ∨ req.firstName = "" ∨ req.lastName = "" ∨ req.email = "" ∨
      req.waiverAccepted = false then
    (Resp.err 400 "Missing required fields", db, [])
  else
    let sanitizedEmail := sanitizeEmail req.email
    if !validEmailFormat sanitizedEmail then
      (Resp.err 400 "Invalid email format", db, [])
    else if req.guests.length > 4 then
      (Resp.err 400 "Maximum 4 guests allowed", db, [])
    else
      match findGame db (sanitize req.gameId) with
      | none => (Resp.err 404 "Game not found", db, [])
      | some game =>
        match findDuplicateRsvp db (sanitize req.gameId) sanitizedEmail with
        | some _ => (Resp.err 400 dupBookingMsg, db, [])
        | none =>
          let totalPlayers : Int := 1 + req.guests.length
          if game.spotsRemaining < totalPlayers then
            (Resp.err 400 "Not enough spots available", db, [])
          else
            match insertRsvp db (cashRsvp req game newCode now ip) with
            | Except.error _ => (Resp.err 500 "Failed to create RSVP", db, [])
            | Except.ok db1 =>
              let newSpots := max 0 (game.spotsRemaining - totalPlayers)
              let game' :=
                { game with
                    spotsRemaining := newSpots
                    status := if newSpots ≤ 0 then GameStatus.full else game.status }
              (Resp.rsvpSuccess newCode, updateGame db1 game',
               [Effect.emailConfirmation newCode])

/-- Handler of `POST /api/checkout` (server.js:723-835), checkout initiation.
All checks are read-only: no reservation is created and no capacity is taken
before the webhook arrives.  `newCode` stands for
`generateConfirmationCode().toUpperCase()` and `sessionId` for the id of the
session returned by the external payment gateway. -/
def postCheckout (db : DB) (req : RsvpRequest) (newCode : String) (sessionId : String) :
    Resp × DB × List Effect :=
  if req.gameId = "" ∨ req.firstName = "" ∨ req.lastName = "" ∨ req.email = "" ∨
      req.waiverAccepted = false then
    (Resp.err 400 "Missing required fields", db, [])
  else
    let sanitizedEmail := sanitizeEmail req.email
    if !validEmailFormat sanitizedEmail then
      (Resp.err 400 "Invalid email format", db, [])
    else if req.guests.length > 4 then
      (Resp.err 400 "Maximum 4 guests allowed", db, [])
    else
      match findGame db (sanitize req.gameId) with
      | none => (Resp.err 404 "Game not found", db, [])
      | some game =>
        match findDuplicateRsvp db (sanitize req.gameId) sanitizedEmail with
        | some _ => (Resp.err 400 dupBookingMsg, db, [])
        | none =>
          let totalPlayers : Int := 1 + req.guests.length
          if game.spotsRemaining < totalPlayers then
            (Resp.err 400 "Not enough spots available", db, [])
          else
            -- the response carries the session id; the success redirect URL
            -- embeds `newCode` (server.js:776), recorded here alongside it
            (Resp.checkoutSession sessionId newCode, db, [])

/-- Metadata attached to a payment session at checkout time and round-tripped
back inside the webhook event (server.js:795-813). -/
structure SessionMetadata where
  gameId : String
  confirmationCode : String
  firstName : String
  lastName : String
  email : String
  phone : String
  guests : List Guest
  totalPlayers : Int
  waiverAccepted : Bool
  waiverAcceptedIP : String
  lang : String
deriving DecidableEq, Repr

/-- The session object delivered by a verified `checkout.session.completed`
webhook event (server.js:855-856). -/
structure StripeSession where
  id : String
  amountTotal : Int
  paymentIntent : String
  metadata : SessionMetadata
deriving DecidableEq, Repr

/-- The reservation record built by the webhook handler from the event
metadata (server.js:879-900): online payment, already paid, carrying the
session and payment-intent references. -/
def webhookRsvp (session : StripeSession) (now : Int) : Reservation :=
  { gameId := session.metadata.gameId
    confirmationCode := jsToUpper session.metadata.confirmationCode
    player :=
      { firstName := session.metadata.firstName
        lastName := session.metadata.lastName
        email := session.metadata.email
        phone := session.metadata.phone }
    guests := session.metadata.guests
    totalPlayers := session.metadata.totalPlayers
    totalAmount := session.amountTotal / 100
    paymentMethod := PaymentMethod.online
    paymentStatus := PaymentStatus.paid
    stripeSessionId := some session.id
    stripePaymentIntentId := some session.paymentIntent
    waiverAccepted := session.metadata.waiverAccepted
    waiverAcceptedAt := some now
    waiverAcceptedIP :=
      if session.metadata.waiverAcceptedIP = "" then "unknown"
      else session.metadata.waiverAcceptedIP
    status := RsvpStatus.confirmed }

/-- Handler of the `checkout.session.completed` branch of `POST /api/webhook`
(server.js:854-927), reached only after `stripe.webhooks.constructEvent`
verified the signature (an unverifiable event returns 400 with no state
change and is not modelled further).  A processing exception (e.g. the
unique-index rejection of `rsvp.save()`) is caught, logged, and the endpoint
still acknowledges with `received: true` (server.js:921-926). -/
def postWebhook (db : DB) (session : StripeSession) (now : Int) :
    Resp × DB × List Effect :=
  match findGame db session.metadata.gameId with
  | none => (Resp.err 400 "Game not found", db, [])
  | some game =>
    match db.rsvps.find? (fun r =>
        r.confirmationCode = session.metadata.confirmationCode ∨
        r.stripeSessionId = some session.id) with
    | some _ => (Resp.webhookReceived true, db, [])
    | none =>
      match insertRsvp db (webhookRsvp session now) with
      | Except.error _ => (Resp.webhookReceived false, db, [])
      | Except.ok db1 =>
        let playersToDeduct := session.metadata.totalPlayers
        let newSpots := max 0 (game.spotsRemaining - playersToDeduct)
        let game' :=
          { game with
              spotsRemaining := newSpots
              status := if newSpots ≤ 0 then GameStatus.full else game.status }
        (Resp.webhookReceived false, updateGame db1 game',
         [Effect.emailConfirmation (webhookRsvp session now).confirmationCode])

/-- The reservation lookup of the cancellation handler (server.js:1029-1035):
exact match on the normalised code first, then, when the code does not start
with `LP-`, a retry with the prefix prepended. -/
def findRsvpByCode (db : DB) (code : String) : Option Reservation :=
  match db.rsvps.find? (fun r => r.confirmationCode = code) with
  | some r => some r
  | none =>
    if !("LP-".data.isPrefixOf code.data) then
      db.rsvps.find? (fun r => r.confirmationCode = "LP-" ++ code)
    else none

/-- Handler of `POST /api/rsvp/:code/cancel` (server.js:1015-1194).
`codeParam` is the raw path parameter, `email` the claimed holder email from
the body, `now` the current time in milliseconds.  The source combines the
not-found and email-mismatch cases in a single `if` returning one literal
response (server.js:1039-1041); the two match branches below return that same
literal.  `Number.isFinite(game.capacity)` (server.js:1113) always holds in
this model because `capacity` is an integer.  The locally computed
`refundEligible` flag reaches the response and the operator alert; its
assignment onto the document (server.js:1068), like `cancelledAt`, targets a
path `rsvpSchema` does not declare and is dropped by strict-mode `save()`,
so the persisted reservation update covers only `status` and
`paymentStatus`. -/
def postCancel (db : DB) (codeParam : String) (email : String) (now : Int) :
    Resp × DB × List Effect :=
  if email = "" then
    (Resp.err 400 "Email is required to confirm cancellation", db, [])
  else
    let code := jsToUpper (jsTrim codeParam)
    if code = "" ∨ code.data.length > 20 then
      (Resp.err 400 "Invalid confirmation code", db, [])
    else
      match findRsvpByCode db code with
      | none => (Resp.err 404 notFoundOrMismatchMsg, db, [])
      | some rsvp =>
        if jsToLower rsvp.player.email ≠ jsToLower email then
          (Resp.err 404 notFoundOrMismatchMsg, db, [])
        else if rsvp.status = RsvpStatus.cancelled then
          (Resp.err 400 "This booking has already been cancelled", db, [])
        else
          let gameFound := findGame db rsvp.gameId
          if (match gameFound with
              | some g => decide (g.date < now)
              | none => false) then
            (Resp.err 400 "Cannot cancel past games", db, [])
          else
            let refundEligible : Bool :=
              match gameFound with
              | some g =>
                if rsvp.paymentMethod = PaymentMethod.online then
                  hoursUntilGameGe24 (g.date - now)
                else false
              | none => false
            -- server.js:1066-1068 also assigns `cancelledAt` and
            -- `refundEligible`, but neither is a path of `rsvpSchema`, so
            -- strict-mode `save()` persists only the updates below
            let rsvp' :=
              { rsvp with
                  status := RsvpStatus.cancelled
                  paymentStatus :=
                    if rsvp.paymentMethod ≠ PaymentMethod.online then
                      PaymentStatus.cancelled
                    else rsvp.paymentStatus }
            let db1 := updateRsvp db rsvp'
            let adminEffects :=
              if rsvp.paymentMethod = PaymentMethod.online then
                [Effect.operatorCancelAlert rsvp.confirmationCode refundEligible]
              else []
            let refundFlag := decide (rsvp.paymentMethod = PaymentMethod.online)
            match gameFound with
            | some g =>
              let restoredSpots := g.spotsRemaining + rsvp.totalPlayers
              let newSpots := max 0 (min restoredSpots g.capacity)
              let g' :=
                { g with
                    spotsRemaining := newSpots
                    status :=
                      if g.status = GameStatus.full ∧ newSpots > 0 then GameStatus.open
                      else g.status }
              let db2 := updateGame db1 g'
              match findNextWaitlist db2 g.gameId with
              | some w =>
                let db3 := updateWaitlist db2 { w with notified := true, notifiedAt := some now }
                (Resp.cancelSuccess refundEligible refundFlag, db3,
                 adminEffects ++ [Effect.waitlistSpotOpened g.gameId w.email,
                   Effect.cancellationEmail rsvp.confirmationCode])
              | none =>
                (Resp.cancelSuccess refundEligible refundFlag, db2,
                 adminEffects ++ [Effect.cancellationEmail rsvp.confirmationCode])
            | none =>
              (Resp.cancelSuccess refundEligible refundFlag, db1,
               adminEffects ++ [Effect.cancellationEmail rsvp.confirmationCode])


/-- Total `totalPlayers` across the non-cancelled reservations of a game:
the quantity the no-overbooking invariant compares with
`capacity - spotsRemaining`. -/
def reservedPlayers (db : DB) (gid : String) : Int :=
  ((db.rsvps.filter (fun r =>
      r.gameId = gid && r.status ≠ RsvpStatus.cancelled)).map
    (fun r => r.totalPlayers)).sum

/-- The per-game no-overbooking invariant of spec §8:
`0 ≤ spotsRemaining ≤ capacity` and the non-cancelled reservations account
for exactly `capacity - spotsRemaining` players. -/
def gameConsistent (db : DB) (g : Game) : Bool :=
  decide (0 ≤ g.spotsRemaining) && decide (g.spotsRemaining ≤ g.capacity) &&
    decide (reservedPlayers db g.gameId = g.capacity - g.spotsRemaining)

/-- The no-overbooking invariant for every game of the database. -/
def dbConsistent (db : DB) : Bool :=
  db.games.all (fun g => gameConsistent db g)

/-- Fixture: a game with capacity 2 and a single spot left. -/
def overbookGame : Game :=
  { gameId := "G1", date := 1000000000, price := 6, capacity := 2,
    spotsRemaining := 1, status := GameStatus.open }

/-- Fixture: the holder of the pre-existing reservation. -/
def overbookHolder : Player :=
  { firstName := "Ana", lastName := "Lopez", email := "ana@example.com",
    phone := "" }

/-- Fixture: a pre-existing one-player cash reservation on `overbookGame`;
its code equals `jsToUpper (generateConfirmationCode (List.replicate 12 0))`. -/
def overbookExisting : Reservation :=
  { gameId := "G1", confirmationCode := "LP-AAAAAAAAAAAA",
    player := overbookHolder, guests := [], totalPlayers := 1, totalAmount := 6,
    paymentMethod := PaymentMethod.cashapp, paymentStatus := PaymentStatus.pending,
    stripeSessionId := none, stripePaymentIntentId := none,
    waiverAccepted := true, waiverAcceptedAt := some 0,
    waiverAcceptedIP := "203.0.113.7", status := RsvpStatus.confirmed }

/-- Fixture: consistent state — one game with one spot left and one
non-cancelled one-player reservation (capacity 2). -/
def overbookDB : DB :=
  { games := [overbookGame], rsvps := [overbookExisting], waitlist := [] }

/-- Fixture: metadata of a two-player checkout whose webhook arrives after
the game has only one spot left. -/
def overbookMetadata : SessionMetadata :=
  { gameId := "G1", confirmationCode := "LP-CCCCCCCCCCCC", firstName := "Eva",
    lastName := "Marin", email := "eva@example.com", phone := "",
    guests := [{ firstName := "Gus", lastName := "Marin" }], totalPlayers := 2,
    waiverAccepted := true, waiverAcceptedIP := "203.0.113.9", lang := "en" }

/-- Fixture: the completed-checkout session carrying `overbookMetadata`. -/
def overbookSession : StripeSession :=
  { id := "cs_test_123", amountTotal := 1200, paymentIntent := "pi_123",
    metadata := overbookMetadata }

/-- Fixture: a valid cash-path request from a new email for `overbookGame`. -/
def collisionReq : RsvpRequest :=
  { gameId := "G1", firstName := "Cem", lastName := "Iker",
    email := "cem@example.com", phone := "", guests := [],
    waiverAccepted := true, paymentMethod := "cashapp", lang := "en" }

/-- Fixture: a one-player checkout session used for the idempotency witness
(fresh code and session id with respect to `overbookDB`). -/
def idemSession : StripeSession :=
  { id := "cs_test_456", amountTotal := 600, paymentIntent := "pi_456",
    metadata :=
      { gameId := "G1", confirmationCode := "LP-EEEEEEEEEEEE",
        firstName := "Ida", lastName := "Gray", email := "ida@example.com",
        phone := "", guests := [], totalPlayers := 1, waiverAccepted := true,
        waiverAcceptedIP := "203.0.113.11", lang := "en" } }

/-- Fixture: an online-paid reservation on `overbookGame`, cancellable by its
holder, used by the refund-eligibility and uniform-failure witnesses. -/
def onlineRsvp : Reservation :=
  { gameId := "G1", confirmationCode := "LP-DDDDDDDDDDDD",
    player := { firstName := "Dan", lastName := "East",
                email := "Dan@Example.com", phone := "" },
    guests := [], totalPlayers := 1, totalAmount := 6,
    paymentMethod := PaymentMethod.online, paymentStatus := PaymentStatus.paid,
    stripeSessionId := some "cs_test_789",
    stripePaymentIntentId := some "pi_789",
    waiverAccepted := true, waiverAcceptedAt := some 0,
    waiverAcceptedIP := "203.0.113.12", status := RsvpStatus.confirmed }

/-- Fixture: `overbookGame` with no spot left and status `full`. -/
def fullGame : Game :=
  { overbookGame with spotsRemaining := 0, status := GameStatus.full }

/-- Fixture: `overbookDB` extended with the online reservation (game spot
count adjusted to keep the state consistent: 0 spots of capacity 2). -/
def cancelDB : DB :=
  { games := [fullGame], rsvps := [overbookExisting, onlineRsvp], waitlist := [] }

/-- Fixture: a cash-path request duplicating the holder email of
`overbookExisting` (different case, normalised to the same address). -/
def dupReq : RsvpRequest :=
  { gameId := "G1", firstName := "Ana", lastName := "Lopez",
    email := "Ana@Example.com", phone := "", guests := [],
    waiverAccepted := true, paymentMethod := "cashapp", lang := "en" }

/-! ## Theorems -/

/-- The kernel-reducible refund comparison agrees with the literal
transcription of server.js:1061-1062: dividing the millisecond difference by
`1000*60*60` and comparing with 24 is the same as comparing the difference
with 24 hours of milliseconds. -/
theorem hoursUntilGameGe24_eq_rat (d : Int) :
    hoursUntilGameGe24Rat d = hoursUntilGameGe24 d := by
  unfold hoursUntilGameGe24Rat hoursUntilGameGe24
  rw [decide_eq_decide]
  rw [le_div_iff₀ (by norm_num : (0:ℚ) < 1000 * 60 * 60)]
  constructor
  · intro h
    exact_mod_cast h
  · intro h
    exact_mod_cast h

/-- C1: the no-overbooking invariant is NOT preserved by every operation
sequence.  From the consistent state `overbookDB` (capacity 2, one spot
left, one one-player reservation), finalising the verified two-player
webhook `overbookSession` creates a second reservation without re-checking
capacity: afterwards the non-cancelled reservations hold 3 players while
`capacity - spotsRemaining = 2`, so the invariant is false.  The clamp keeps
`0 ≤ spotsRemaining ≤ capacity`, but the bookkeeping equality breaks. -/
theorem c1_webhook_breaks_no_overbooking_invariant :
    dbConsistent overbookDB = true ∧
    (postWebhook overbookDB overbookSession 0).2.1.rsvps.length = 2 ∧
    reservedPlayers (postWebhook overbookDB overbookSession 0).2.1 "G1" = 3 ∧
    (findGame (postWebhook overbookDB overbookSession 0).2.1 "G1").map
      (fun g => g.capacity - g.spotsRemaining) = some 2 ∧
    dbConsistent (postWebhook overbookDB overbookSession 0).2.1 = false := by
  decide

/-- C2: webhook finalization does NOT re-validate
`spotsRemaining ≥ totalPlayers`.  In `overbookDB` the game has 1 spot left
while the verified event carries `totalPlayers = 2`; the handler still
creates the reservation (one record with the event's session id appears),
acknowledges the event, and clamps the spot count at 0 instead of rejecting. -/
theorem c2_webhook_skips_finalize_capacity_check :
    overbookGame.spotsRemaining < overbookSession.metadata.totalPlayers ∧
    findGame overbookDB overbookSession.metadata.gameId = some overbookGame ∧
    (postWebhook overbookDB overbookSession 0).1 = Resp.webhookReceived false ∧
    ((postWebhook overbookDB overbookSession 0).2.1.rsvps.filter
      (fun r => r.stripeSessionId = some overbookSession.id)).length = 1 ∧
    findGame (postWebhook overbookDB overbookSession 0).2.1 "G1" =
      some { overbookGame with spotsRemaining := 0, status := GameStatus.full } := by
  decide

/-- C9: a confirmation-code collision is NOT handled by regenerating.  In
`overbookDB` the generator output for bytes `0,...,0` uppercases to the code
of the existing reservation; the cash-path handler then fails the insert on
the unique index and returns a 500 `Failed to create RSVP` with no retry and
no state change — while the same request with a fresh code succeeds, showing
the collision alone causes the failure. -/
theorem c9_code_collision_returns_500 :
    jsToUpper (generateConfirmationCode (List.replicate 12 0)) =
      overbookExisting.confirmationCode ∧
    postRsvp overbookDB collisionReq
        (jsToUpper (generateConfirmationCode (List.replicate 12 0))) 0 "203.0.113.10" =
      (Resp.err 500 "Failed to create RSVP", overbookDB, []) ∧
    (postRsvp overbookDB collisionReq "LP-BBBBBBBBBBBB" 0 "203.0.113.10").1 =
      Resp.rsvpSuccess "LP-BBBBBBBBBBBB" := by
  decide

/-- C8: uniform cancellation failure.  A request whose (normalised) code
resolves to no reservation and a request whose code resolves to a
reservation held under a different email (case-insensitively) produce the
same triple: identical status code 404, byte-identical error payload, no
state change, no effects — the two failure causes are indistinguishable. -/
theorem c8_uniform_cancellation_failure (db : DB) (code1 email1 code2 email2 : String)
    (now1 now2 : Int) (r : Reservation)
    (he1 : ¬ email1 = "") (he2 : ¬ email2 = "")
    (hc1 : ¬(jsToUpper (jsTrim code1) = "" ∨ (jsToUpper (jsTrim code1)).data.length > 20))
    (hc2 : ¬(jsToUpper (jsTrim code2) = "" ∨ (jsToUpper (jsTrim code2)).data.length > 20))
    (hnf : findRsvpByCode db (jsToUpper (jsTrim code1)) = none)
    (hf : findRsvpByCode db (jsToUpper (jsTrim code2)) = some r)
    (hmm : ¬ jsToLower r.player.email = jsToLower email2) :
    postCancel db code1 email1 now1 = (Resp.err 404 notFoundOrMismatchMsg, db, []) ∧
    postCancel db code2 email2 now2 = (Resp.err 404 notFoundOrMismatchMsg, db, []) ∧
    postCancel db code1 email1 now1 = postCancel db code2 email2 now2 := by
  refine ⟨?_, ?_, ?_⟩
  · unfold postCancel
    rw [if_neg he1]
    simp only [if_neg hc1, hnf]
  · unfold postCancel
    rw [if_neg he2]
    simp only [if_neg hc2, hf, if_pos hmm]
  · unfold postCancel
    rw [if_neg he1, if_neg he2]
    simp only [if_neg hc1, if_neg hc2, hnf, hf, if_pos hmm]

/-- Witness for C8: in `cancelDB`, a nonexistent code with a valid email and
the valid code `LP-DDDDDDDDDDDD` with the wrong email `ana@example.com`
yield the identical 404 response. -/
theorem c8_uniform_cancellation_failure_witness :
    postCancel cancelDB "LP-ZZZZZZZZZZZZ" "x@example.com" 5 =
      (Resp.err 404 notFoundOrMismatchMsg, cancelDB, []) ∧
    postCancel cancelDB "LP-DDDDDDDDDDDD" "ana@example.com" 6 =
      (Resp.err 404 notFoundOrMismatchMsg, cancelDB, []) ∧
    postCancel cancelDB "LP-ZZZZZZZZZZZZ" "x@example.com" 5 =
      postCancel cancelDB "LP-DDDDDDDDDDDD" "ana@example.com" 6 :=
  c8_uniform_cancellation_failure cancelDB "LP-ZZZZZZZZZZZZ" "x@example.com"
    "LP-DDDDDDDDDDDD" "ana@example.com" 5 6 onlineRsvp (by decide) (by decide)
    (by decide) (by decide) (by decide) (by decide) (by decide)

set_option maxRecDepth 4000 in
/-- C4: duplicate-booking guard.  When a request passes validation, its game
exists, and a non-cancelled reservation already exists for (gameId,
lowercased email), both the cash path and the checkout-initiation path fail
with the one generic 400 message, change no state, emit no effects; the
fixed message is a constant that cannot contain the existing reservation's
`LP-`-prefixed confirmation code. -/
theorem c4_duplicate_booking_rejected (db : DB) (req : RsvpRequest)
    (newCode : String) (now : Int) (ip : String) (sessionId : String)
    (g : Game) (ex : Reservation)
    (hv1 : ¬(req.gameId = "" ∨ req.firstName = "" ∨ req.lastName = "" ∨
      req.email = "" ∨ req.waiverAccepted = false))
    (hv2 : validEmailFormat (sanitizeEmail req.email) = true)
    (hv3 : ¬ req.guests.length > 4)
    (hg : findGame db (sanitize req.gameId) = some g)
    (hdup : findDuplicateRsvp db (sanitize req.gameId) (sanitizeEmail req.email) = some ex) :
    postRsvp db req newCode now ip = (Resp.err 400 dupBookingMsg, db, []) ∧
    postCheckout db req newCode sessionId = (Resp.err 400 dupBookingMsg, db, []) ∧
    ("LP-".data <+: ex.confirmationCode.data →
      ¬ ex.confirmationCode.data <:+: dupBookingMsg.data) := by
  refine ⟨?_, ?_, ?_⟩
  · unfold postRsvp
    rw [if_neg hv1]
    simp only [hv2, Bool.not_true, Bool.false_eq_true, if_false, if_neg hv3, hg, hdup]
  · unfold postCheckout
    rw [if_neg hv1]
    simp only [hv2, Bool.not_true, Bool.false_eq_true, if_false, if_neg hv3, hg, hdup]
  · intro hpre hinf
    have h3 : "LP-".data <:+: dupBookingMsg.data := hpre.isInfix.trans hinf
    revert h3
    decide

/-- Witness for C4: the request `dupReq` (email `Ana@Example.com`,
normalising to the holder email of `overbookExisting`) is rejected by both
reservation paths with the generic message and no state change. -/
theorem c4_duplicate_booking_rejected_witness :
    postRsvp overbookDB dupReq "LP-BBBBBBBBBBBB" 0 "203.0.113.13" =
      (Resp.err 400 dupBookingMsg, overbookDB, []) ∧
    postCheckout overbookDB dupReq "LP-BBBBBBBBBBBB" "cs_test_999" =
      (Resp.err 400 dupBookingMsg, overbookDB, []) ∧
    ("LP-".data <+: overbookExisting.confirmationCode.data →
      ¬ overbookExisting.confirmationCode.data <:+: dupBookingMsg.data) :=
  c4_duplicate_booking_rejected overbookDB dupReq "LP-BBBBBBBBBBBB" 0
    "203.0.113.13" "cs_test_999" overbookGame overbookExisting (by decide)
    (by decide) (by decide) (by decide) (by decide)

/-- Updating a game whose id matches the one a `findGame` succeeded on makes
`findGame` return the updated record. -/
theorem findGame_updateGame (db : DB) (g g' : Game) (gid : String)
    (h : findGame db gid = some g) (hgid : g'.gameId = gid) :
    findGame (updateGame db g') gid = some g' := by
  rcases db with ⟨games, rsvps, wl⟩
  simp only [findGame, updateGame] at h ⊢
  induction games with
  | nil => simp at h
  | cons x xs ih =>
    simp only [List.map_cons]
    by_cases hx : x.gameId = gid
    · rw [if_pos (by rw [hx, hgid])]
      exact List.find?_cons_of_pos _ (by simp [hgid])
    · rw [if_neg (by rw [hgid]; exact hx)]
      rw [List.find?_cons_of_neg _ (by simp [hx])]
      rw [List.find?_cons_of_neg _ (by simp [hx])] at h
      exact ih h

/-- A game found by `findGame db gid` has `gameId = gid`. -/
theorem gameId_of_findGame (db : DB) (g : Game) (gid : String)
    (h : findGame db gid = some g) : g.gameId = gid := by
  have := List.find?_some h
  simpa using this

/-- C3: webhook finalization is idempotent.  If a completed-checkout event
finds its game, no reservation matches its confirmation code or session id,
and the created record's code is fresh, then the first delivery succeeds and
appends exactly one reservation (the only one carrying the event's session
id), and redelivering the identical event is a no-op success: it answers
`received: true, duplicate: true`, changes no state, and emits no effects —
so two deliveries yield one reservation and one capacity decrement. -/
theorem c3_webhook_idempotent (db : DB) (s : StripeSession) (now now2 : Int) (g : Game)
    (hgame : findGame db s.metadata.gameId = some g)
    (hnodup : db.rsvps.find? (fun r =>
        r.confirmationCode = s.metadata.confirmationCode ∨
        r.stripeSessionId = some s.id) = none)
    (hfresh : db.rsvps.any (fun x =>
        x.confirmationCode = (webhookRsvp s now).confirmationCode) = false) :
    (postWebhook db s now).1 = Resp.webhookReceived false ∧
    (db.rsvps.filter (fun r => r.stripeSessionId = some s.id)).length = 0 ∧
    (postWebhook db s now).2.1.rsvps.length = db.rsvps.length + 1 ∧
    ((postWebhook db s now).2.1.rsvps.filter
        (fun r => r.stripeSessionId = some s.id)).length = 1 ∧
    postWebhook (postWebhook db s now).2.1 s now2 =
      (Resp.webhookReceived true, (postWebhook db s now).2.1, []) := by
  have hfilter0 : (db.rsvps.filter (fun r => r.stripeSessionId = some s.id)).length = 0 := by
    rw [List.length_eq_zero, List.filter_eq_nil_iff]
    intro a ha
    have := List.find?_eq_none.mp hnodup a ha
    simp only [decide_eq_true_eq] at this ⊢
    intro hsess
    exact this (Or.inr hsess)
  have h1 : postWebhook db s now =
      (Resp.webhookReceived false,
        updateGame { db with rsvps := db.rsvps ++ [webhookRsvp s now] }
          { g with
              spotsRemaining := max 0 (g.spotsRemaining - s.metadata.totalPlayers)
              status :=
                if max 0 (g.spotsRemaining - s.metadata.totalPlayers) ≤ 0 then GameStatus.full
                else g.status },
        [Effect.emailConfirmation (webhookRsvp s now).confirmationCode]) := by
    simp only [postWebhook, hgame, hnodup, insertRsvp, hfresh, Bool.false_eq_true, if_false]
  refine ⟨by rw [h1], hfilter0, ?_, ?_, ?_⟩
  · rw [h1]
    simp [updateGame]
  · rw [h1]
    simp only [updateGame, List.filter_append, List.length_append]
    rw [hfilter0]
    simp [webhookRsvp]
  · rw [h1]
    have hg2 : findGame (updateGame { db with rsvps := db.rsvps ++ [webhookRsvp s now] }
        { g with
            spotsRemaining := max 0 (g.spotsRemaining - s.metadata.totalPlayers)
            status :=
              if max 0 (g.spotsRemaining - s.metadata.totalPlayers) ≤ 0 then GameStatus.full
              else g.status }) s.metadata.gameId = some
        { g with
            spotsRemaining := max 0 (g.spotsRemaining - s.metadata.totalPlayers)
            status :=
              if max 0 (g.spotsRemaining - s.metadata.totalPlayers) ≤ 0 then GameStatus.full
              else g.status } := by
      apply findGame_updateGame _ g
      · exact hgame
      · exact gameId_of_findGame db g _ hgame
    have hguard : (db.rsvps ++ [webhookRsvp s now]).find? (fun r =>
        r.confirmationCode = s.metadata.confirmationCode ∨
        r.stripeSessionId = some s.id) = some (webhookRsvp s now) := by
      rw [List.find?_append, hnodup]
      simp [webhookRsvp]
    simp only [updateGame] at hg2
    simp only [postWebhook, updateGame, hg2, hguard]

/-- Witness for C3: delivering `idemSession` to `overbookDB` once creates
the single reservation carrying its session id; the second delivery reports
a duplicate no-op and leaves the state of the first delivery untouched. -/
theorem c3_webhook_idempotent_witness :
    (postWebhook overbookDB idemSession 0).1 = Resp.webhookReceived false ∧
    (overbookDB.rsvps.filter
        (fun r => r.stripeSessionId = some idemSession.id)).length = 0 ∧
    (postWebhook overbookDB idemSession 0).2.1.rsvps.length =
      overbookDB.rsvps.length + 1 ∧
    ((postWebhook overbookDB idemSession 0).2.1.rsvps.filter
        (fun r => r.stripeSessionId = some idemSession.id)).length = 1 ∧
    postWebhook (postWebhook overbookDB idemSession 0).2.1 idemSession 7 =
      (Resp.webhookReceived true, (postWebhook overbookDB idemSession 0).2.1, []) :=
  c3_webhook_idempotent overbookDB idemSession 0 7 overbookGame (by decide)
    (by decide) (by decide)

/-- C5: cash-path capacity rule.  For a validated request on an existing
game with no duplicate booking and `totalPlayers = 1 + guests.length`:
the request fails with the capacity error exactly when
`totalPlayers > spotsRemaining` (and then nothing changes); on success (with
a fresh code) the stored game's `spotsRemaining` becomes
`max 0 (spotsRemaining - totalPlayers)` and its status is set to `full`
exactly when the new `spotsRemaining` is 0, otherwise left as it was. -/
theorem c5_cash_capacity_check (db : DB) (req : RsvpRequest) (newCode : String)
    (now : Int) (ip : String) (g : Game)
    (hv1 : ¬(req.gameId = "" ∨ req.firstName = "" ∨ req.lastName = "" ∨
      req.email = "" ∨ req.waiverAccepted = false))
    (hv2 : validEmailFormat (sanitizeEmail req.email) = true)
    (hv3 : ¬ req.guests.length > 4)
    (hg : findGame db (sanitize req.gameId) = some g)
    (hnodup : findDuplicateRsvp db (sanitize req.gameId) (sanitizeEmail req.email) = none) :
    ((postRsvp db req newCode now ip).1 = Resp.err 400 "Not enough spots available" ↔
      g.spotsRemaining < 1 + (req.guests.length : Int)) ∧
    (g.spotsRemaining < 1 + (req.guests.length : Int) →
      postRsvp db req newCode now ip =
        (Resp.err 400 "Not enough spots available", db, [])) ∧
    (¬ g.spotsRemaining < 1 + (req.guests.length : Int) →
      db.rsvps.any (fun x => x.confirmationCode = newCode) = false →
      (postRsvp db req newCode now ip).1 = Resp.rsvpSuccess newCode ∧
      findGame (postRsvp db req newCode now ip).2.1 (sanitize req.gameId) =
        some { g with
                spotsRemaining := max 0 (g.spotsRemaining - (1 + (req.guests.length : Int)))
                status :=
                  if max 0 (g.spotsRemaining - (1 + (req.guests.length : Int))) = 0 then
                    GameStatus.full
                  else g.status }) := by
  have hfail : g.spotsRemaining < 1 + (req.guests.length : Int) →
      postRsvp db req newCode now ip =
        (Resp.err 400 "Not enough spots available", db, []) := by
    intro h
    unfold postRsvp
    rw [if_neg hv1]
    simp only [hv2, Bool.not_true, Bool.false_eq_true, if_false, if_neg hv3, hg, hnodup]
    rw [if_pos h]
  have hsucc : ¬ g.spotsRemaining < 1 + (req.guests.length : Int) →
      db.rsvps.any (fun x => x.confirmationCode = newCode) = false →
      postRsvp db req newCode now ip =
        (Resp.rsvpSuccess newCode,
          updateGame { db with rsvps := db.rsvps ++ [cashRsvp req g newCode now ip] }
            { g with
                spotsRemaining := max 0 (g.spotsRemaining - (1 + (req.guests.length : Int)))
                status :=
                  if max 0 (g.spotsRemaining - (1 + (req.guests.length : Int))) ≤ 0 then
                    GameStatus.full
                  else g.status },
          [Effect.emailConfirmation newCode]) := by
    intro h hfresh
    unfold postRsvp
    rw [if_neg hv1]
    simp only [hv2, Bool.not_true, Bool.false_eq_true, if_false, if_neg hv3, hg, hnodup]
    rw [if_neg h]
    simp only [insertRsvp, cashRsvp, hfresh, Bool.false_eq_true, if_false]
  refine ⟨?_, hfail, ?_⟩
  · constructor
    · intro hresp
      by_contra hnot
      have h500 : postRsvp db req newCode now ip =
          (Resp.err 500 "Failed to create RSVP", db, []) ∨
          (postRsvp db req newCode now ip).1 = Resp.rsvpSuccess newCode := by
        unfold postRsvp
        rw [if_neg hv1]
        simp only [hv2, Bool.not_true, Bool.false_eq_true, if_false, if_neg hv3, hg, hnodup]
        rw [if_neg hnot]
        cases hins : insertRsvp db (cashRsvp req g newCode now ip) with
        | error e => left; rfl
        | ok db1 => right; rfl
      rcases h500 with h | h
      · rw [h] at hresp
        simp at hresp
      · rw [h] at hresp
        simp at hresp
    · intro h
      rw [hfail h]
  · intro h hfresh
    rw [hsucc h hfresh]
    constructor
    · rfl
    · have hfg := findGame_updateGame
        { db with rsvps := db.rsvps ++ [cashRsvp req g newCode now ip] } g
        { g with
            spotsRemaining := max 0 (g.spotsRemaining - (1 + (req.guests.length : Int)))
            status :=
              if max 0 (g.spotsRemaining - (1 + (req.guests.length : Int))) ≤ 0 then
                GameStatus.full
              else g.status }
        (sanitize req.gameId) hg (gameId_of_findGame db g _ hg)
      rw [hfg]
      congr 2
      have hiff : (max 0 (g.spotsRemaining - (1 + (req.guests.length : Int))) ≤ 0) ↔
          (max 0 (g.spotsRemaining - (1 + (req.guests.length : Int))) = 0) := by
        omega
      simp only [hiff]

/-- Witness for C5: the one-player request `collisionReq` against
`overbookDB` (one spot left) succeeds with a fresh code, drops
`spotsRemaining` to `max 0 (1 - 1) = 0`, and flips the game to `full`. -/
theorem c5_cash_capacity_check_witness :
    ((postRsvp overbookDB collisionReq "LP-BBBBBBBBBBBB" 0 "203.0.113.10").1 =
        Resp.err 400 "Not enough spots available" ↔
      overbookGame.spotsRemaining < 1 + (collisionReq.guests.length : Int)) ∧
    (overbookGame.spotsRemaining < 1 + (collisionReq.guests.length : Int) →
      postRsvp overbookDB collisionReq "LP-BBBBBBBBBBBB" 0 "203.0.113.10" =
        (Resp.err 400 "Not enough spots available", overbookDB, [])) ∧
    (¬ overbookGame.spotsRemaining < 1 + (collisionReq.guests.length : Int) →
      overbookDB.rsvps.any (fun x => x.confirmationCode = "LP-BBBBBBBBBBBB") = false →
      (postRsvp overbookDB collisionReq "LP-BBBBBBBBBBBB" 0 "203.0.113.10").1 =
        Resp.rsvpSuccess "LP-BBBBBBBBBBBB" ∧
      findGame (postRsvp overbookDB collisionReq "LP-BBBBBBBBBBBB" 0 "203.0.113.10").2.1
          (sanitize collisionReq.gameId) =
        some { overbookGame with
                spotsRemaining :=
                  max 0 (overbookGame.spotsRemaining - (1 + (collisionReq.guests.length : Int)))
                status :=
                  if max 0 (overbookGame.spotsRemaining -
                      (1 + (collisionReq.guests.length : Int))) = 0 then
                    GameStatus.full
                  else overbookGame.status }) :=
  c5_cash_capacity_check overbookDB collisionReq "LP-BBBBBBBBBBBB" 0 "203.0.113.10"
    overbookGame (by decide) (by decide) (by decide) (by decide) (by decide)

/-- Rewriting a reservation record does not change game lookups. -/
theorem findGame_updateRsvp (db : DB) (r : Reservation) (gid : String) :
    findGame (updateRsvp db r) gid = findGame db gid := rfl

/-- Rewriting a waitlist entry does not change game lookups. -/
theorem findGame_updateWaitlist (db : DB) (w : WaitlistEntry) (gid : String) :
    findGame (updateWaitlist db w) gid = findGame db gid := rfl

/-- C6: successful cancellation restores capacity with the source's clamp.
Under the success conditions (code resolves, email matches, not already
cancelled, game found and not in the past) the stored game afterwards has
`spotsRemaining = max 0 (min (spotsRemaining + totalPlayers) capacity)`, and
its status flips from `full` to `open` exactly when the restored count is
positive; for a well-formed game (nonnegative spots, players and capacity)
the clamp is exactly `min (spotsRemaining + totalPlayers) capacity`, i.e. an
increase by `totalPlayers` bounded above by `capacity`. -/
theorem c6_cancel_restores_capacity (db : DB) (codeParam email : String) (now : Int)
    (r : Reservation) (g : Game)
    (hemail : ¬ email = "")
    (hcode : ¬(jsToUpper (jsTrim codeParam) = "" ∨
      (jsToUpper (jsTrim codeParam)).data.length > 20))
    (hfound : findRsvpByCode db (jsToUpper (jsTrim codeParam)) = some r)
    (hmatch : jsToLower r.player.email = jsToLower email)
    (hnc : ¬ r.status = RsvpStatus.cancelled)
    (hgame : findGame db r.gameId = some g)
    (hpast : ¬ g.date < now) :
    findGame (postCancel db codeParam email now).2.1 g.gameId =
      some { g with
              spotsRemaining := max 0 (min (g.spotsRemaining + r.totalPlayers) g.capacity)
              status :=
                if g.status = GameStatus.full ∧
                    max 0 (min (g.spotsRemaining + r.totalPlayers) g.capacity) > 0 then
                  GameStatus.open
                else g.status } ∧
    (0 ≤ g.spotsRemaining → 0 ≤ r.totalPlayers → 0 ≤ g.capacity →
      max 0 (min (g.spotsRemaining + r.totalPlayers) g.capacity) =
        min (g.spotsRemaining + r.totalPlayers) g.capacity) := by
  refine ⟨?_, fun h1 h2 h3 => by omega⟩
  unfold postCancel
  rw [if_neg hemail]
  simp only [if_neg hcode, hfound, hgame]
  rw [if_neg (fun hn => hn hmatch)]
  rw [if_neg hnc]
  rw [if_neg (by simp [hpast])]
  split
  · rw [findGame_updateWaitlist]
    refine findGame_updateGame _ g _ g.gameId ?_ rfl
    rw [findGame_updateRsvp, gameId_of_findGame db g r.gameId hgame]
    exact hgame
  · refine findGame_updateGame _ g _ g.gameId ?_ rfl
    rw [findGame_updateRsvp, gameId_of_findGame db g r.gameId hgame]
    exact hgame

/-- Witness for C6: cancelling the one-player reservation
`LP-AAAAAAAAAAAA` in `cancelDB` (game full, 0 of 2 spots) restores
`spotsRemaining` to `max 0 (min 1 2) = 1` and reopens the game. -/
theorem c6_cancel_restores_capacity_witness :
    findGame (postCancel cancelDB "LP-AAAAAAAAAAAA" "ana@example.com" 5).2.1
        fullGame.gameId =
      some { fullGame with
              spotsRemaining :=
                max 0 (min (fullGame.spotsRemaining + overbookExisting.totalPlayers)
                  fullGame.capacity)
              status :=
                if fullGame.status = GameStatus.full ∧
                    max 0 (min (fullGame.spotsRemaining + overbookExisting.totalPlayers)
                      fullGame.capacity) > 0 then
                  GameStatus.open
                else fullGame.status } ∧
    (0 ≤ fullGame.spotsRemaining → 0 ≤ overbookExisting.totalPlayers →
      0 ≤ fullGame.capacity →
      max 0 (min (fullGame.spotsRemaining + overbookExisting.totalPlayers)
        fullGame.capacity) =
        min (fullGame.spotsRemaining + overbookExisting.totalPlayers)
          fullGame.capacity) :=
  c6_cancel_restores_capacity cancelDB "LP-AAAAAAAAAAAA" "ana@example.com" 5
    overbookExisting fullGame
    (by decide) (by decide) (by decide) (by decide) (by decide) (by decide) (by decide)

/-- Rewriting a game record does not change the reservation collection. -/
theorem rsvps_updateGame (db : DB) (g : Game) : (updateGame db g).rsvps = db.rsvps := rfl

/-- Rewriting a waitlist entry does not change the reservation collection. -/
theorem rsvps_updateWaitlist (db : DB) (w : WaitlistEntry) :
    (updateWaitlist db w).rsvps = db.rsvps := rfl

/-- After `updateRsvp`, looking a code up yields the replacement record
whenever the original lookup succeeded. -/
theorem find?_code_updateRsvp (db : DB) (r' : Reservation) (c : String)
    (hc : r'.confirmationCode = c) :
    (updateRsvp db r').rsvps.find? (fun x => x.confirmationCode = c) =
      (db.rsvps.find? (fun x => x.confirmationCode = c)).map
        (fun _ => r') := by
  subst hc
  rcases db with ⟨games, rsvps, wl⟩
  simp only [updateRsvp]
  induction rsvps with
  | nil => rfl
  | cons x xs ih =>
    simp only [List.map_cons]
    by_cases hx : x.confirmationCode = r'.confirmationCode
    · rw [if_pos hx]
      rw [List.find?_cons_of_pos _ (by simp)]
      rw [List.find?_cons_of_pos _ (by simp [hx])]
      rfl
    · rw [if_neg hx]
      rw [List.find?_cons_of_neg _ (by simp [hx])]
      rw [List.find?_cons_of_neg _ (by simp [hx])]
      exact ih

/-- A reservation resolved by `findRsvpByCode` is also the first record
carrying its own stored confirmation code. -/
theorem find?_self_of_findRsvpByCode (db : DB) (code : String) (r : Reservation)
    (h : findRsvpByCode db code = some r) :
    db.rsvps.find? (fun x => x.confirmationCode = r.confirmationCode) = some r := by
  unfold findRsvpByCode at h
  cases hfind : db.rsvps.find? (fun x => x.confirmationCode = code) with
  | some r0 =>
    rw [hfind] at h
    have hr : r0 = r := by simpa using h
    subst hr
    have hc : r0.confirmationCode = code := by
      simpa using List.find?_some hfind
    rw [hc]
    exact hfind
  | none =>
    rw [hfind] at h
    by_cases hp : ("LP-".data.isPrefixOf code.data)
    · simp [hp] at h
    · simp only [hp, Bool.not_false, if_pos] at h
      have hc : r.confirmationCode = "LP-" ++ code := by
        simpa using List.find?_some h
      rw [hc]
      exact h

/-- C7: refund eligibility is computed at cancellation and reported, but it
is NOT stored on the Reservation.  Cancelling the online reservation
`LP-DDDDDDDDDDDD` in `cancelDB` at time 0 (its game is 1000000000 ms away,
beyond 24 hours) computes `refundEligible = true` exactly as
server.js:1061-1062 does; the response carries the flag, the effects are
precisely the operator alert carrying it plus the holder's cancellation
email (so no refund is issued), yet the saved reservation equals the
original record with only `status` flipped to `cancelled`: the assignments
of server.js:1067-1068 target paths `rsvpSchema` does not declare, so
strict-mode `save()` discards them and the stored record — whose type,
mirroring the schema, has no `refundEligible` path — retains no trace of
the flag.  Nothing is "stored frozen on the Reservation" as the claim
requires. -/
theorem c7_refund_flag_not_persisted :
    hoursUntilGameGe24 (fullGame.date - 0) = true ∧
    (postCancel cancelDB "LP-DDDDDDDDDDDD" "dan@example.com" 0).1 =
      Resp.cancelSuccess true true ∧
    (postCancel cancelDB "LP-DDDDDDDDDDDD" "dan@example.com" 0).2.2 =
      [Effect.operatorCancelAlert "LP-DDDDDDDDDDDD" true,
        Effect.cancellationEmail "LP-DDDDDDDDDDDD"] ∧
    (postCancel cancelDB "LP-DDDDDDDDDDDD" "dan@example.com" 0).2.1.rsvps.find?
        (fun x => x.confirmationCode = "LP-DDDDDDDDDDDD") =
      some { onlineRsvp with status := RsvpStatus.cancelled } := by
  decide

/-- Every reservation record the cash-path handler can add has
`paymentMethod = cashapp` (server.js:690 hard-codes it on both branches of
its conditional). -/
theorem postRsvp_paymentMethod_cashapp (db : DB) (req : RsvpRequest) (newCode : String)
    (now : Int) (ip : String) (r : Reservation)
    (hr : r ∈ (postRsvp db req newCode now ip).2.1.rsvps) :
    r ∈ db.rsvps ∨ r.paymentMethod = PaymentMethod.cashapp := by
  unfold postRsvp at hr
  dsimp only at hr
  repeat' split at hr
  all_goals try exact Or.inl hr
  all_goals rename_i hins hcond
  all_goals rw [rsvps_updateGame] at hr
  all_goals unfold insertRsvp at hins
  all_goals split at hins
  all_goals cases hins
  all_goals dsimp only at hr
  all_goals
    (rcases List.mem_append.mp hr with h | h
     · exact Or.inl h
     · right
       rw [List.mem_singleton.mp h]
       simp only [cashRsvp]
       split <;> rfl)

/-- Cancelling a `cashapp` reservation (game present-and-future or absent)
reports `refundEligible = false` and no refund, since eligibility is
computed only for `paymentMethod = online`; the persisted update marks the
record cancelled with `paymentStatus = cancelled`, the only schema paths the
handler writes. -/
theorem cancel_cashapp_refund_false (db : DB) (codeParam email : String) (now : Int)
    (r : Reservation)
    (hemail : ¬ email = "")
    (hcode : ¬(jsToUpper (jsTrim codeParam) = "" ∨
      (jsToUpper (jsTrim codeParam)).data.length > 20))
    (hfound : findRsvpByCode db (jsToUpper (jsTrim codeParam)) = some r)
    (hmatch : jsToLower r.player.email = jsToLower email)
    (hnc : ¬ r.status = RsvpStatus.cancelled)
    (hpast : ∀ g, findGame db r.gameId = some g → ¬ g.date < now)
    (hcash : r.paymentMethod = PaymentMethod.cashapp) :
    (postCancel db codeParam email now).1 = Resp.cancelSuccess false false ∧
    (postCancel db codeParam email now).2.1.rsvps.find?
        (fun x => x.confirmationCode = r.confirmationCode) =
      some { r with
              status := RsvpStatus.cancelled
              paymentStatus := PaymentStatus.cancelled } := by
  have hno : ¬ r.paymentMethod = PaymentMethod.online := by
    rw [hcash]
    simp
  have hneq : r.paymentMethod ≠ PaymentMethod.online := hno
  unfold postCancel
  rw [if_neg hemail]
  simp only [if_neg hcode, hfound]
  rw [if_neg (fun hn => hn hmatch)]
  rw [if_neg hnc]
  cases hg : findGame db r.gameId with
  | none =>
    simp only [hg, Bool.false_eq_true, if_false, if_neg hno, if_pos hneq,
      decide_eq_false hno, List.nil_append]
    refine ⟨trivial, ?_⟩
    rw [find?_code_updateRsvp db
        { r with
            status := RsvpStatus.cancelled
            paymentStatus := PaymentStatus.cancelled }
        r.confirmationCode rfl,
      find?_self_of_findRsvpByCode db _ r hfound]
    rfl
  | some g =>
    simp only [hg]
    rw [if_neg (by simp [hpast g hg])]
    simp only [if_neg hno, if_pos hneq, decide_eq_false hno, List.nil_append]
    refine ⟨?_, ?_⟩
    · first
      | trivial
      | (split <;> rfl)
    · split
      · rw [rsvps_updateWaitlist, rsvps_updateGame,
          find?_code_updateRsvp db
            { r with
                status := RsvpStatus.cancelled
                paymentStatus := PaymentStatus.cancelled }
            r.confirmationCode rfl,
          find?_self_of_findRsvpByCode db _ r hfound]
        rfl
      · rw [rsvps_updateGame,
          find?_code_updateRsvp db
            { r with
                status := RsvpStatus.cancelled
                paymentStatus := PaymentStatus.cancelled }
            r.confirmationCode rfl,
          find?_self_of_findRsvpByCode db _ r hfound]
        rfl

/-- C10: the cash-path endpoint stores `paymentMethod = cashapp` regardless
of the request's `paymentMethod` value (any reservation present after the
handler ran was either already there or is a `cashapp` record), and
consequently a successful cancellation of such a reservation always yields
`refundEligible = false` in the response, eligibility being computed only
for online payments; the persisted update marks the record cancelled. -/
theorem c10_cash_rsvp_always_cashapp :
    (∀ (db : DB) (req : RsvpRequest) (newCode : String) (now : Int) (ip : String)
        (r : Reservation), r ∈ (postRsvp db req newCode now ip).2.1.rsvps →
        r ∈ db.rsvps ∨ r.paymentMethod = PaymentMethod.cashapp) ∧
    (∀ (db : DB) (codeParam email : String) (now : Int) (r : Reservation),
        ¬ email = "" →
        ¬(jsToUpper (jsTrim codeParam) = "" ∨
          (jsToUpper (jsTrim codeParam)).data.length > 20) →
        findRsvpByCode db (jsToUpper (jsTrim codeParam)) = some r →
        jsToLower r.player.email = jsToLower email →
        ¬ r.status = RsvpStatus.cancelled →
        (∀ g, findGame db r.gameId = some g → ¬ g.date < now) →
        r.paymentMethod = PaymentMethod.cashapp →
        (postCancel db codeParam email now).1 = Resp.cancelSuccess false false ∧
        (postCancel db codeParam email now).2.1.rsvps.find?
            (fun x => x.confirmationCode = r.confirmationCode) =
          some { r with
                  status := RsvpStatus.cancelled
                  paymentStatus := PaymentStatus.cancelled }) :=
  ⟨postRsvp_paymentMethod_cashapp, cancel_cashapp_refund_false⟩

/-- Witness for C10: the reservation created by `collisionReq` (which asked
for `cashapp`) is stored as `cashapp`, and cancelling the pre-existing
`cashapp` reservation `LP-AAAAAAAAAAAA` reports `refundEligible = false`
and marks the stored record cancelled. -/
theorem c10_cash_rsvp_always_cashapp_witness :
    (cashRsvp collisionReq overbookGame "LP-BBBBBBBBBBBB" 0 "203.0.113.10" ∈
        overbookDB.rsvps ∨
      (cashRsvp collisionReq overbookGame "LP-BBBBBBBBBBBB" 0
          "203.0.113.10").paymentMethod = PaymentMethod.cashapp) ∧
    ((postCancel cancelDB "LP-AAAAAAAAAAAA" "ana@example.com" 5).1 =
        Resp.cancelSuccess false false ∧
      (postCancel cancelDB "LP-AAAAAAAAAAAA" "ana@example.com" 5).2.1.rsvps.find?
          (fun x => x.confirmationCode = overbookExisting.confirmationCode) =
        some { overbookExisting with
                status := RsvpStatus.cancelled
                paymentStatus := PaymentStatus.cancelled }) :=
  ⟨c10_cash_rsvp_always_cashapp.1 overbookDB collisionReq "LP-BBBBBBBBBBBB" 0
      "203.0.113.10" _ (by decide),
   c10_cash_rsvp_always_cashapp.2 cancelDB "LP-AAAAAAAAAAAA" "ana@example.com" 5
     overbookExisting (by decide) (by decide) (by decide) (by decide) (by decide)
     (fun g hg => by
       have hg' : fullGame = g := Option.some.inj hg
       rw [← hg']
       decide)
     (by decide)⟩
